import Mathlib

/-!
Shallow embedding of the `assignment_checker` Solana program
(`src/programs/assignment_checker/src/lib.rs`).

Byte arrays (`[u8; 16]`, `[u8; 32]`) are modelled as `List Nat`; the `u16`
counters are modelled as `Nat` (the only arithmetic the program performs on
them is a decrement guarded by a zero test, settled separately below).
The blake3 hash primitive is external to the program, so `check` takes the
hash function as an explicit parameter.  Account mutation is modelled by
explicit state passing: `check` returns the final contents of both mutable
accounts together with the `Result<()>` outcome (`none` = `Ok(())`,
`some e` = `Err(e)`); on every early `return Err(...)` path of the source no
account field has been written yet, so the records are returned unchanged
there.
-/

namespace AssignmentChecker

/-- The `AssignmentCheckerState` account: per-assignment shared verification
state (the spec's ChainCommitment).  `bump_seed` belongs to address
derivation, which is outside the verification core, and is omitted. -/
structure AssignmentCheckerState where
  assignment_id : List Nat
  hash_chain_length : Nat
  to_mint_on_successful_check : Nat
  salt : List Nat
  ground_truth_hash_chain_tail : List Nat
deriving DecidableEq, Repr

/-- The `CheckResult` account: per-student submission outcome (the spec's
SubmissionResult).  `bump_seed` is omitted as above. -/
structure CheckResult where
  assignment_id : List Nat
  check_passed : Bool
  passed_first_time : Bool
deriving DecidableEq, Repr

/-- The `AssignmentCheckerError` error enum of the program. -/
inductive AssignmentCheckerError where
  | ZeroHashChainLength
  | ExpectedHashLengthDiffers
deriving DecidableEq, Repr

/-- Outcome of one `check` invocation: final contents of the two mutable
accounts plus the returned `Result<()>` (`none` means `Ok(())`). -/
structure CheckOutcome where
  assignment_checker : AssignmentCheckerState
  check_result : CheckResult
  result : Option AssignmentCheckerError
deriving DecidableEq, Repr

/-- `init_check_result`: a freshly created `CheckResult` account.  Anchor
zero-initializes the account, and the instruction writes only
`assignment_id` (and the bump seed), so both booleans start `false`. -/
def init_check_result (assignment_id : List Nat) : CheckResult :=
  { assignment_id := assignment_id
    check_passed := false
    passed_first_time := false }

/-- The `check` instruction of the program, embedded as a pure state
transformer.  `blake3hash` is the external blake3 primitive;
`expected_hash_chain_length` and `hash_chain_tail_parent` are the
instruction arguments. -/
def check (blake3hash : List Nat → List Nat)
    (checker_account : AssignmentCheckerState)
    (check_result_account : CheckResult)
    (expected_hash_chain_length : Nat)
    (hash_chain_tail_parent : List Nat) : CheckOutcome :=
  if check_result_account.check_passed then
    -- previous check succeded; this check is no longer the first
    { assignment_checker := checker_account
      check_result := { check_result_account with passed_first_time := false }
      result := none }
  else if checker_account.hash_chain_length = 0 then
    -- checker has used full hash chain
    { assignment_checker := checker_account
      check_result := check_result_account
      result := some AssignmentCheckerError.ZeroHashChainLength }
  else if checker_account.hash_chain_length ≠ expected_hash_chain_length then
    -- client expects different hash chain length then the checker has
    { assignment_checker := checker_account
      check_result := check_result_account
      result := some AssignmentCheckerError.ExpectedHashLengthDiffers }
  else if blake3hash hash_chain_tail_parent =
      checker_account.ground_truth_hash_chain_tail then
    -- check has passed the first time; remove tail from the chain
    { assignment_checker :=
        { checker_account with
          hash_chain_length := checker_account.hash_chain_length - 1
          ground_truth_hash_chain_tail := hash_chain_tail_parent }
      check_result :=
        { check_result_account with
          check_passed := true
          passed_first_time := true }
      result := none }
  else
    -- keep check_passed and passed_first_time as false
    { assignment_checker := checker_account
      check_result := check_result_account
      result := none }

/-- Checked subtraction on the `u16` counter: `none` models the panic that
`a - b` would raise on underflow in debug builds. -/
def u16CheckedSub (a b : Nat) : Option Nat :=
  if b ≤ a then some (a - b) else none

/-- `check` with the decrement `hash_chain_length -= 1` replaced by
`u16CheckedSub`; a `none` result models an underflow panic.  Used to settle
that the decrement can never underflow. -/
def checkChecked (blake3hash : List Nat → List Nat)
    (checker_account : AssignmentCheckerState)
    (check_result_account : CheckResult)
    (expected_hash_chain_length : Nat)
    (hash_chain_tail_parent : List Nat) : Option CheckOutcome :=
  if check_result_account.check_passed then
    some
      { assignment_checker := checker_account
        check_result := { check_result_account with passed_first_time := false }
        result := none }
  else if checker_account.hash_chain_length = 0 then
    some
      { assignment_checker := checker_account
        check_result := check_result_account
        result := some AssignmentCheckerError.ZeroHashChainLength }
  else if checker_account.hash_chain_length ≠ expected_hash_chain_length then
    some
      { assignment_checker := checker_account
        check_result := check_result_account
        result := some AssignmentCheckerError.ExpectedHashLengthDiffers }
  else if blake3hash hash_chain_tail_parent =
      checker_account.ground_truth_hash_chain_tail then
    match u16CheckedSub checker_account.hash_chain_length 1 with
    | none => none
    | some n =>
        some
          { assignment_checker :=
              { checker_account with
                hash_chain_length := n
                ground_truth_hash_chain_tail := hash_chain_tail_parent }
            check_result :=
              { check_result_account with
                check_passed := true
                passed_first_time := true }
            result := none }
  else
    some
      { assignment_checker := checker_account
        check_result := check_result_account
        result := none }

/-- One submission attempt against a shared checker, as seen from the
checker account: the submitting student's `CheckResult` contents and the
two instruction arguments. -/
structure CheckCall where
  check_result : CheckResult
  expected_hash_chain_length : Nat
  hash_chain_tail_parent : List Nat

/-- Thread the shared checker account through a sequence of `check`
invocations by arbitrary submitters. -/
def runChecks (blake3hash : List Nat → List Nat)
    (checker_account : AssignmentCheckerState) :
    List CheckCall → AssignmentCheckerState
  | [] => checker_account
  | c :: cs =>
      runChecks blake3hash
        (check blake3hash checker_account c.check_result
          c.expected_hash_chain_length c.hash_chain_tail_parent).assignment_checker
        cs

/-- One submission attempt as seen from a single student's `CheckResult`
account: the shared checker contents at the time of the call and the two
instruction arguments. -/
structure SubmitterCall where
  assignment_checker : AssignmentCheckerState
  expected_hash_chain_length : Nat
  hash_chain_tail_parent : List Nat

/-- Thread one student's `CheckResult` account through a sequence of their
own `check` invocations (the shared checker may have been changed by other
students between calls, so each call carries its own checker contents). -/
def runSubmitter (blake3hash : List Nat → List Nat)
    (check_result_account : CheckResult) :
    List SubmitterCall → CheckResult
  | [] => check_result_account
  | s :: ss =>
      runSubmitter blake3hash
        (check blake3hash s.assignment_checker check_result_account
          s.expected_hash_chain_length s.hash_chain_tail_parent).check_result
        ss

/-! ## Theorems -/

/-- C1: with `remaining_length > 0`, `check_passed = false`, matching
`expected_remaining_length` and a preimage hashing to the frontier, `check`
succeeds, decrements the length by exactly 1, moves the frontier to the
offered preimage, and sets both booleans to `true`. -/
theorem check_correct_preimage_advances
    (blake3hash : List Nat → List Nat)
    (checker : AssignmentCheckerState) (r : CheckResult) (p : List Nat)
    (hlen : 0 < checker.hash_chain_length)
    (hpassed : r.check_passed = false)
    (hhash : blake3hash p = checker.ground_truth_hash_chain_tail) :
    check blake3hash checker r checker.hash_chain_length p =
      { assignment_checker :=
          { checker with
            hash_chain_length := checker.hash_chain_length - 1
            ground_truth_hash_chain_tail := p }
        check_result :=
          { r with check_passed := true, passed_first_time := true }
        result := none } := by
  have h0 : checker.hash_chain_length ≠ 0 := Nat.pos_iff_ne_zero.mp hlen
  simp [check, hpassed, hhash, h0]

/-- Witness for C1 at a concrete input. -/
theorem check_correct_preimage_advances_witness :
    check (fun _ => [7])
        { assignment_id := [1], hash_chain_length := 3
          to_mint_on_successful_check := 5, salt := [2]
          ground_truth_hash_chain_tail := [7] }
        { assignment_id := [1], check_passed := false
          passed_first_time := false } 3 [9] =
      { assignment_checker :=
          { assignment_id := [1], hash_chain_length := 2
            to_mint_on_successful_check := 5, salt := [2]
            ground_truth_hash_chain_tail := [9] }
        check_result :=
          { assignment_id := [1], check_passed := true
            passed_first_time := true }
        result := none } :=
  check_correct_preimage_advances (fun _ => [7]) _ _ [9] (by decide) rfl rfl

/-- C2: with `remaining_length > 0`, `check_passed = false`, matching
`expected_remaining_length` but a preimage not hashing to the frontier,
`check` succeeds and leaves both records entirely unchanged. -/
theorem check_incorrect_preimage_no_effect
    (blake3hash : List Nat → List Nat)
    (checker : AssignmentCheckerState) (r : CheckResult) (p : List Nat)
    (hlen : 0 < checker.hash_chain_length)
    (hpassed : r.check_passed = false)
    (hhash : blake3hash p ≠ checker.ground_truth_hash_chain_tail) :
    check blake3hash checker r checker.hash_chain_length p =
      { assignment_checker := checker, check_result := r, result := none } := by
  have h0 : checker.hash_chain_length ≠ 0 := Nat.pos_iff_ne_zero.mp hlen
  simp [check, hpassed, hhash, h0]

/-- Witness for C2 at a concrete input. -/
theorem check_incorrect_preimage_no_effect_witness :
    check (fun _ => [8])
        { assignment_id := [1], hash_chain_length := 3
          to_mint_on_successful_check := 5, salt := [2]
          ground_truth_hash_chain_tail := [7] }
        { assignment_id := [1], check_passed := false
          passed_first_time := false } 3 [9] =
      { assignment_checker :=
          { assignment_id := [1], hash_chain_length := 3
            to_mint_on_successful_check := 5, salt := [2]
            ground_truth_hash_chain_tail := [7] }
        check_result :=
          { assignment_id := [1], check_passed := false
            passed_first_time := false }
        result := none } :=
  check_incorrect_preimage_no_effect (fun _ => [8]) _ _ [9] (by decide) rfl
    (by decide)

/-- C3: once `check_passed = true`, any `check` call, for any preimage and
any expected length, succeeds, sets `passed_first_time := false`, and
changes nothing else in either record. -/
theorem check_idempotent_after_pass
    (blake3hash : List Nat → List Nat)
    (checker : AssignmentCheckerState) (r : CheckResult)
    (e : Nat) (p : List Nat)
    (hpassed : r.check_passed = true) :
    check blake3hash checker r e p =
      { assignment_checker := checker
        check_result := { r with passed_first_time := false }
        result := none } := by
  simp [check, hpassed]

/-- Witness for C3 at a concrete input. -/
theorem check_idempotent_after_pass_witness :
    check (fun _ => [7])
        { assignment_id := [1], hash_chain_length := 0
          to_mint_on_successful_check := 5, salt := [2]
          ground_truth_hash_chain_tail := [7] }
        { assignment_id := [1], check_passed := true
          passed_first_time := true } 4 [9] =
      { assignment_checker :=
          { assignment_id := [1], hash_chain_length := 0
            to_mint_on_successful_check := 5, salt := [2]
            ground_truth_hash_chain_tail := [7] }
        check_result :=
          { assignment_id := [1], check_passed := true
            passed_first_time := false }
        result := none } :=
  check_idempotent_after_pass (fun _ => [7]) _ _ 4 [9] rfl

/-- C4: with `remaining_length > 0` and `check_passed = false`, a mismatched
`expected_remaining_length` makes `check` fail with
`ExpectedHashLengthDiffers` and leaves both records unchanged, for every
preimage (matching or not). -/
theorem check_stale_view_rejected
    (blake3hash : List Nat → List Nat)
    (checker : AssignmentCheckerState) (r : CheckResult)
    (e : Nat) (p : List Nat)
    (hlen : 0 < checker.hash_chain_length)
    (hpassed : r.check_passed = false)
    (hexp : e ≠ checker.hash_chain_length) :
    check blake3hash checker r e p =
      { assignment_checker := checker, check_result := r
        result := some AssignmentCheckerError.ExpectedHashLengthDiffers } := by
  have h0 : checker.hash_chain_length ≠ 0 := Nat.pos_iff_ne_zero.mp hlen
  have hexp2 : checker.hash_chain_length ≠ e := fun h => hexp h.symm
  simp [check, hpassed, h0, hexp2]

/-- Witness for C4 at a concrete input whose preimage would have matched. -/
theorem check_stale_view_rejected_witness :
    check (fun _ => [7])
        { assignment_id := [1], hash_chain_length := 3
          to_mint_on_successful_check := 5, salt := [2]
          ground_truth_hash_chain_tail := [7] }
        { assignment_id := [1], check_passed := false
          passed_first_time := false } 2 [9] =
      { assignment_checker :=
          { assignment_id := [1], hash_chain_length := 3
            to_mint_on_successful_check := 5, salt := [2]
            ground_truth_hash_chain_tail := [7] }
        check_result :=
          { assignment_id := [1], check_passed := false
            passed_first_time := false }
        result := some AssignmentCheckerError.ExpectedHashLengthDiffers } :=
  check_stale_view_rejected (fun _ => [7]) _ _ 2 [9] (by decide) rfl (by decide)

theorem check_checker_eq_of_zero (blake3hash : List Nat → List Nat)
    (checker : AssignmentCheckerState) (r : CheckResult) (e : Nat)
    (p : List Nat) (hlen : checker.hash_chain_length = 0) :
    (check blake3hash checker r e p).assignment_checker = checker := by
  by_cases hr : r.check_passed <;> simp [check, hr, hlen]

theorem runChecks_zero (blake3hash : List Nat → List Nat)
    (cs : List CheckCall) : ∀ checker : AssignmentCheckerState,
    checker.hash_chain_length = 0 →
    (runChecks blake3hash checker cs).hash_chain_length = 0 := by
  induction cs with
  | nil => intro checker h; exact h
  | cons c cs ih =>
      intro checker h
      rw [runChecks, check_checker_eq_of_zero _ _ _ _ _ h]
      exact ih checker h

/-- C5 counterexample: against an exhausted checker (`hash_chain_length = 0`),
a submitter whose `check_passed` is already `true` receives success from
`check`, not a `ZeroHashChainLength` failure. -/
theorem check_exhausted_passed_submitter_succeeds :
    (check (fun _ => [0])
        { assignment_id := [1], hash_chain_length := 0
          to_mint_on_successful_check := 5, salt := [2]
          ground_truth_hash_chain_tail := [7] }
        { assignment_id := [1], check_passed := true
          passed_first_time := false } 0 [0]).result = none := by
  decide

/-- C5 (amended): once `hash_chain_length = 0`, every subsequent `check`
call by a submitter whose `check_passed` is still `false` fails with
`ZeroHashChainLength` with both records unchanged; the length stays 0 after
any sequence of calls; and no such submitter's `check_passed` can ever
become `true` thereafter.  (Submitters with `check_passed = true` instead
receive idempotent success.) -/
theorem check_exhausted_terminal
    (blake3hash : List Nat → List Nat) (checker : AssignmentCheckerState)
    (hlen : checker.hash_chain_length = 0) :
    (∀ (r : CheckResult) (e : Nat) (p : List Nat), r.check_passed = false →
      check blake3hash checker r e p =
        { assignment_checker := checker, check_result := r
          result := some AssignmentCheckerError.ZeroHashChainLength }) ∧
    (∀ cs : List CheckCall,
      (runChecks blake3hash checker cs).hash_chain_length = 0) ∧
    (∀ (cs : List CheckCall) (r : CheckResult) (e : Nat) (p : List Nat),
      r.check_passed = false →
      (check blake3hash (runChecks blake3hash checker cs) r e
        p).check_result.check_passed = false) := by
  refine ⟨fun r e p hr => by simp [check, hr, hlen],
    fun cs => runChecks_zero blake3hash cs checker hlen, ?_⟩
  intro cs r e p hr
  have h0 := runChecks_zero blake3hash cs checker hlen
  simp [check, hr, h0]

/-- Witness for the amended C5 at a concrete input. -/
theorem check_exhausted_terminal_witness :
    ({ assignment_id := [1], hash_chain_length := 0
       to_mint_on_successful_check := 5, salt := [2]
       ground_truth_hash_chain_tail := [7] } :
        AssignmentCheckerState).hash_chain_length = 0 ∧
    check (fun _ => [7])
        { assignment_id := [1], hash_chain_length := 0
          to_mint_on_successful_check := 5, salt := [2]
          ground_truth_hash_chain_tail := [7] }
        { assignment_id := [1], check_passed := false
          passed_first_time := false } 0 [9] =
      { assignment_checker :=
          { assignment_id := [1], hash_chain_length := 0
            to_mint_on_successful_check := 5, salt := [2]
            ground_truth_hash_chain_tail := [7] }
        check_result :=
          { assignment_id := [1], check_passed := false
            passed_first_time := false }
        result := some AssignmentCheckerError.ZeroHashChainLength } :=
  ⟨rfl, (check_exhausted_terminal (fun _ => [7]) _ rfl).1
    { assignment_id := [1], check_passed := false
      passed_first_time := false } 0 [9] rfl⟩

theorem check_length_le (blake3hash : List Nat → List Nat)
    (checker : AssignmentCheckerState) (r : CheckResult) (e : Nat)
    (p : List Nat) :
    (check blake3hash checker r e p).assignment_checker.hash_chain_length ≤
      checker.hash_chain_length := by
  unfold check
  split_ifs
  all_goals first
  | exact Nat.le_refl _
  | exact Nat.sub_le _ _

theorem check_length_decrement_iff (blake3hash : List Nat → List Nat)
    (checker : AssignmentCheckerState) (r : CheckResult) (e : Nat)
    (p : List Nat) :
    (check blake3hash checker r e p).assignment_checker.hash_chain_length + 1 =
        checker.hash_chain_length ↔
      r.check_passed = false ∧
        (check blake3hash checker r e p).check_result.check_passed = true := by
  unfold check
  split_ifs <;> simp_all <;> omega

theorem runChecks_length_le (blake3hash : List Nat → List Nat)
    (cs : List CheckCall) : ∀ checker : AssignmentCheckerState,
    (runChecks blake3hash checker cs).hash_chain_length ≤
      checker.hash_chain_length := by
  induction cs with
  | nil => intro checker; exact Nat.le_refl _
  | cons c cs ih =>
      intro checker
      exact Nat.le_trans (ih _) (check_length_le _ _ _ _ _)

/-- C6: `hash_chain_length` never increases: each `check` call leaves it ≤
its old value (and so does any sequence of calls), and it drops by exactly 1
precisely on a successful verification, i.e. exactly when the call moves
`check_passed` from `false` to `true`. -/
theorem check_length_monotone (blake3hash : List Nat → List Nat)
    (checker : AssignmentCheckerState) (r : CheckResult) (e : Nat)
    (p : List Nat) :
    ((check blake3hash checker r e p).assignment_checker.hash_chain_length ≤
      checker.hash_chain_length) ∧
    ((check blake3hash checker r e p).assignment_checker.hash_chain_length + 1 =
        checker.hash_chain_length ↔
      r.check_passed = false ∧
        (check blake3hash checker r e p).check_result.check_passed = true) ∧
    (∀ cs : List CheckCall,
      (runChecks blake3hash checker cs).hash_chain_length ≤
        checker.hash_chain_length) :=
  ⟨check_length_le _ _ _ _ _, check_length_decrement_iff _ _ _ _ _,
    fun cs => runChecks_length_le _ cs checker⟩

/-- C7: whenever `check` returns an error, both records are exactly as they
were before the call. -/
theorem check_error_no_mutation (blake3hash : List Nat → List Nat)
    (checker : AssignmentCheckerState) (r : CheckResult) (e : Nat)
    (p : List Nat) (err : AssignmentCheckerError)
    (herr : (check blake3hash checker r e p).result = some err) :
    (check blake3hash checker r e p).assignment_checker = checker ∧
    (check blake3hash checker r e p).check_result = r := by
  unfold check at herr ⊢
  split_ifs at herr ⊢ <;> simp_all

/-- Witness for C7 at a concrete input. -/
theorem check_error_no_mutation_witness :
    (check (fun _ => [0])
        { assignment_id := [1], hash_chain_length := 0
          to_mint_on_successful_check := 5, salt := [2]
          ground_truth_hash_chain_tail := [7] }
        { assignment_id := [1], check_passed := false
          passed_first_time := false } 3 [9]).result =
      some AssignmentCheckerError.ZeroHashChainLength ∧
    ((check (fun _ => [0])
        { assignment_id := [1], hash_chain_length := 0
          to_mint_on_successful_check := 5, salt := [2]
          ground_truth_hash_chain_tail := [7] }
        { assignment_id := [1], check_passed := false
          passed_first_time := false } 3 [9]).assignment_checker =
      { assignment_id := [1], hash_chain_length := 0
        to_mint_on_successful_check := 5, salt := [2]
        ground_truth_hash_chain_tail := [7] } ∧
    (check (fun _ => [0])
        { assignment_id := [1], hash_chain_length := 0
          to_mint_on_successful_check := 5, salt := [2]
          ground_truth_hash_chain_tail := [7] }
        { assignment_id := [1], check_passed := false
          passed_first_time := false } 3 [9]).check_result =
      { assignment_id := [1], check_passed := false
        passed_first_time := false }) :=
  ⟨by decide, check_error_no_mutation _ _ _ 3 [9]
    AssignmentCheckerError.ZeroHashChainLength (by decide)⟩

/-- C8: with `check_passed = false`, the exhaustion guard is evaluated
before the stale-view guard: when the length is 0 and the expected length
also differs, `check` fails with `ZeroHashChainLength`, not
`ExpectedHashLengthDiffers`. -/
theorem check_exhaustion_checked_before_stale
    (blake3hash : List Nat → List Nat)
    (checker : AssignmentCheckerState) (r : CheckResult) (e : Nat)
    (p : List Nat)
    (hpassed : r.check_passed = false)
    (hlen : checker.hash_chain_length = 0)
    (_hexp : e ≠ checker.hash_chain_length) :
    (check blake3hash checker r e p).result =
      some AssignmentCheckerError.ZeroHashChainLength := by
  simp [check, hpassed, hlen]

/-- Witness for C8 at a concrete input. -/
theorem check_exhaustion_checked_before_stale_witness :
    ((({ assignment_id := [1], check_passed := false
         passed_first_time := false } : CheckResult).check_passed = false) ∧
      (({ assignment_id := [1], hash_chain_length := 0
          to_mint_on_successful_check := 5, salt := [2]
          ground_truth_hash_chain_tail := [7] } :
            AssignmentCheckerState).hash_chain_length = 0) ∧
      (5 : Nat) ≠ 0) ∧
    (check (fun _ => [7])
        { assignment_id := [1], hash_chain_length := 0
          to_mint_on_successful_check := 5, salt := [2]
          ground_truth_hash_chain_tail := [7] }
        { assignment_id := [1], check_passed := false
          passed_first_time := false } 5 [9]).result =
      some AssignmentCheckerError.ZeroHashChainLength :=
  ⟨⟨rfl, rfl, by decide⟩,
    check_exhaustion_checked_before_stale (fun _ => [7]) _ _ 5 [9] rfl rfl
      (by decide)⟩

/-- C9: the decrement `hash_chain_length -= 1` can never underflow: the
checked-subtraction variant `checkChecked` never returns `none` and agrees
with `check` on every input. -/
theorem checkChecked_total (blake3hash : List Nat → List Nat)
    (checker : AssignmentCheckerState) (r : CheckResult) (e : Nat)
    (p : List Nat) :
    checkChecked blake3hash checker r e p =
      some (check blake3hash checker r e p) := by
  unfold checkChecked check u16CheckedSub
  split_ifs <;> simp_all

theorem check_first_time_imp_passed (blake3hash : List Nat → List Nat)
    (checker : AssignmentCheckerState) (r : CheckResult) (e : Nat)
    (p : List Nat)
    (hinv : r.passed_first_time = true → r.check_passed = true) :
    (check blake3hash checker r e p).check_result.passed_first_time = true →
      (check blake3hash checker r e p).check_result.check_passed = true := by
  unfold check
  split_ifs <;> simp_all

theorem runSubmitter_first_time_imp_passed (blake3hash : List Nat → List Nat)
    (ss : List SubmitterCall) : ∀ r : CheckResult,
    (r.passed_first_time = true → r.check_passed = true) →
    ((runSubmitter blake3hash r ss).passed_first_time = true →
      (runSubmitter blake3hash r ss).check_passed = true) := by
  induction ss with
  | nil => intro r h; exact h
  | cons s ss ih =>
      intro r h
      exact ih _ (check_first_time_imp_passed _ _ _ _ _ h)

/-- C10: the implication `passed_first_time = true → check_passed = true`
is preserved by every `check` call, and it holds along every sequence of
calls starting from a freshly initialized `CheckResult` (both booleans
`false`). -/
theorem check_preserves_first_time_invariant
    (blake3hash : List Nat → List Nat)
    (checker : AssignmentCheckerState) (r : CheckResult) (e : Nat)
    (p : List Nat)
    (hinv : r.passed_first_time = true → r.check_passed = true) :
    ((check blake3hash checker r e p).check_result.passed_first_time = true →
      (check blake3hash checker r e p).check_result.check_passed = true) ∧
    (∀ (assignment_id : List Nat) (ss : List SubmitterCall),
      (runSubmitter blake3hash (init_check_result assignment_id)
          ss).passed_first_time = true →
      (runSubmitter blake3hash (init_check_result assignment_id)
          ss).check_passed = true) :=
  ⟨check_first_time_imp_passed _ _ _ _ _ hinv,
    fun aid ss => runSubmitter_first_time_imp_passed _ ss
      (init_check_result aid) (by simp [init_check_result])⟩

/-- Witness for C10 at a concrete input. -/
theorem check_preserves_first_time_invariant_witness :
    ((init_check_result [1]).passed_first_time = true →
      (init_check_result [1]).check_passed = true) ∧
    ((check (fun _ => [7])
        { assignment_id := [1], hash_chain_length := 3
          to_mint_on_successful_check := 5, salt := [2]
          ground_truth_hash_chain_tail := [7] }
        (init_check_result [1]) 3 [9]).check_result.passed_first_time = true →
      (check (fun _ => [7])
        { assignment_id := [1], hash_chain_length := 3
          to_mint_on_successful_check := 5, salt := [2]
          ground_truth_hash_chain_tail := [7] }
        (init_check_result [1]) 3 [9]).check_result.check_passed = true) :=
  ⟨by simp [init_check_result],
    (check_preserves_first_time_invariant (fun _ => [7]) _ _ 3 [9]
      (by simp [init_check_result])).1⟩

end AssignmentChecker
